import Mathlib

/-!
# Verification of the Daikin cloud login proxy (`src/lib/proxy.js`)

A shallow embedding of the `DaikinCloudProxy` class: the PKCE flow generator
(`_generateInitialUrl`), the token exchanger (`_retrieveTokens`), the
single-shot rendezvous (`waitForTokenResponse` and the settle logic inside the
`onResponseEnd` interception handler), the lifecycle operations (`startServer`,
`stopServer`) and the proxy error handler (`onError`).

JavaScript promises are modelled as a heap (`List PromiseState`) indexed by
allocation order; the session field `resultPromise` holds the index of the
promise currently referenced by the session, if any.  Settling an
already-settled promise is a no-op, exactly as for a JS promise whose stored
`resolve`/`reject` functions are called twice.  External collaborators
(openid-client's `callbackParams`, `codeChallenge` and `oauthCallback`, and the
MITM engine's bind outcomes) are parameters of the embedding.
-/

/-- An opaque, validated token set returned by the external
`openIdClient.oauthCallback` collaborator. -/
structure TokenSet where
  payload : String
deriving DecidableEq, Repr

/-- A Node.js system error as delivered to error handlers: its `code`
(`'ECONNRESET'`, `'EADDRINUSE'`, ...), `message` and `stack`. -/
structure NodeError where
  code : String
  message : String
  stack : String
deriving DecidableEq, Repr

/-- The JS `Error` values thrown or used to reject promises in `proxy.js`:
system errors, the `'Can not decode response for State ...'` error, the
provider `error`/`error_description` error, the
`'Proxy Server just started. Discard old process.'` error thrown at stale
rendezvous discard in `startServer`, and the `'Proxy Server stopped.'` error
used by `stopServer`. -/
inductive JsError where
  | node (e : NodeError)
  | unknownState (st : Option String)
  | authorization (error : String) (error_description : Option String)
  | discardedOnStart
  | stopped
deriving DecidableEq, Repr

/-- The lifecycle of one JS promise: pending, resolved with a value
(`undefined` modelled as `none`), or rejected with an error. -/
inductive PromiseState where
  | pending
  | resolved (v : Option TokenSet)
  | rejected (e : JsError)
deriving DecidableEq, Repr

/-- The callback parameters parsed from a captured redirect URL by the external
`openIdClient.callbackParams`; each field is absent (`none`) or a string. -/
structure CallbackParams where
  state : Option String
  code : Option String
  error : Option String
  error_description : Option String
deriving DecidableEq, Repr

/-- JS truthiness of an optional string parameter: `undefined` and the empty
string are falsy. -/
def jsTruthy : Option String → Bool
  | none => false
  | some s => !s.isEmpty

/-- The property key used when a possibly-`undefined` value indexes a JS
object: `undefined` stringifies to `"undefined"`. -/
def jsPropKey : Option String → String
  | none => "undefined"
  | some s => s

/-- The own-property lookup in `this.openIdStore` (a plain JS object mapping a
`state` string to `{ code_verifier }`), modelled as an association list where
the most recent insertion shadows older ones.  This covers only properties the
program inserted; the full JS property read, which also consults the
`Object.prototype` chain, is `storeRead` below. -/
def lookupState (store : List (String × String)) (st : Option String) : Option String :=
  (store.find? (fun p => p.1 == jsPropKey st)).map (·.2)

/-- The mutable state of one `DaikinCloudProxy` instance: whether
`this.proxyServer` / `this.staticServer` are set, `this.openIdStore`, the index
of `this.resultPromise` (if non-null), and the promise heap. -/
structure SessionState where
  proxyServer : Bool
  staticServer : Bool
  openIdStore : List (String × String)
  resultPromise : Option Nat
  promises : List PromiseState
deriving DecidableEq, Repr

/-- Calling the stored `resolve`/`reject` of promise `id`: has an effect only
while the promise is still pending (JS promises settle at most once). -/
def settlePromise (ps : List PromiseState) (id : Nat) (st : PromiseState) :
    List PromiseState :=
  match ps[id]? with
  | some PromiseState.pending => ps.set id st
  | _ => ps

/-- `waitForTokenResponse` (proxy.js 207-220): allocates a fresh pending
promise, overwrites `this.resultPromise` with it, and returns it.  The prior
promise, if any, is not touched. -/
def waitForTokenResponse (s : SessionState) : SessionState × Nat :=
  ({ s with
      promises := s.promises ++ [PromiseState.pending]
      resultPromise := some s.promises.length },
   s.promises.length)

/-- What the interception callback hands to the rendezvous: a resolution value
(possibly `undefined`) or a rejection error. -/
inductive Delivery where
  | result (v : Option TokenSet)
  | failure (e : JsError)
deriving DecidableEq, Repr

/-- The promise state a delivery settles to. -/
def settledOf : Delivery → PromiseState
  | Delivery.result v => PromiseState.resolved v
  | Delivery.failure e => PromiseState.rejected e

/-- The settle logic of the `onResponseEnd` handler (proxy.js 88-97): both the
success and the failure branch first test `if (this.resultPromise)`; when it is
set they settle it and null the field, otherwise they do nothing. -/
def deliver (d : Delivery) (s : SessionState) : SessionState :=
  match s.resultPromise with
  | some id =>
      { s with
          promises := settlePromise s.promises id (settledOf d)
          resultPromise := none }
  | none => s

/-- The string-keyed properties a plain object literal (`{}`) inherits from
`Object.prototype` in Node.js.  Every one of their values is a function or an
object, hence truthy, and none of them has a `code_verifier` field. -/
def objectPrototypeKeys : List String :=
  ["constructor", "hasOwnProperty", "isPrototypeOf", "propertyIsEnumerable",
   "toLocaleString", "toString", "valueOf", "__defineGetter__", "__defineSetter__",
   "__lookupGetter__", "__lookupSetter__", "__proto__"]

/-- What the JS property read `this.openIdStore[key]` can yield on the plain
object `this.openIdStore`: `undefined` (falsy), a truthy value inherited from
`Object.prototype` (which has no `code_verifier` field), or an own entry
`{ code_verifier }`. -/
inductive StoreValue where
  | undef
  | inherited
  | entry (verifier : String)
deriving DecidableEq, Repr

/-- Truthiness of the read value: only `undefined` is falsy (own entries are
objects and inherited values are functions/objects). -/
def StoreValue.truthy : StoreValue → Bool
  | StoreValue.undef => false
  | _ => true

/-- The `.code_verifier` field of the read value: `undefined` except on an own
entry. -/
def StoreValue.code_verifier : StoreValue → Option String
  | StoreValue.entry v => some v
  | _ => none

/-- The JS property read `this.openIdStore[params.state]`: an own (inserted)
entry shadows everything; otherwise the read falls through to the
`Object.prototype` chain, yielding a truthy inherited value for its property
names and `undefined` for all others. -/
def storeRead (store : List (String × String)) (st : Option String) : StoreValue :=
  match store.find? (fun p => p.1 == jsPropKey st) with
  | some p => StoreValue.entry p.2
  | none =>
      if objectPrototypeKeys.contains (jsPropKey st) then StoreValue.inherited
      else StoreValue.undef

/-- `_retrieveTokens` (proxy.js 250-272) over already-parsed callback
parameters.  The guard `if (!this.openIdStore[params.state])` throws exactly
when the property read is falsy (`undefined`).  `oauth` models the external
`openIdClient.oauthCallback` call (fixed redirect URI `daikinunified://login`),
applied to the parameters and `this.openIdStore[params.state].code_verifier` —
which is `undefined` when the guard was passed by an inherited
`Object.prototype` value; it may fail.  Result `Except.ok none` is the
implicit `undefined` return when neither `code` nor `error` is truthy. -/
def retrieveTokens (oauth : CallbackParams → Option String → Except JsError TokenSet)
    (params : CallbackParams) (store : List (String × String)) :
    Except JsError (Option TokenSet) :=
  match storeRead store params.state with
  | StoreValue.undef => Except.error (JsError.unknownState params.state)
  | v =>
      if jsTruthy params.code then
        (oauth params v.code_verifier).map some
      else if jsTruthy params.error then
        Except.error (JsError.authorization (params.error.getD "") params.error_description)
      else
        Except.ok none

/-- JS `String.prototype.startsWith`: the receiver begins with the given
prefix string (modelled on the character lists). -/
def strStartsWith (s p : String) : Bool :=
  p.data.isPrefixOf s.data

/-- The `onResponseEnd` handler body for a flagged (daikin-host) connection
(proxy.js 78-100): if the response carries a `location` header starting with
`daikinunified://`, run `_retrieveTokens` on it and deliver the outcome to the
rendezvous; otherwise do nothing.  `parse` models the external
`openIdClient.callbackParams`. -/
def onResponseEnd (parse : String → CallbackParams)
    (oauth : CallbackParams → Option String → Except JsError TokenSet)
    (location : Option String) (s : SessionState) : SessionState :=
  match location with
  | none => s
  | some loc =>
      if strStartsWith loc "daikinunified://" then
        match retrieveTokens oauth (parse loc) s.openIdStore with
        | Except.ok v => deliver (Delivery.result v) s
        | Except.error e => deliver (Delivery.failure e) s
      else s

/-- The authorization-URL parameters handed to the external
`openIdClient.authorizationUrl` by `_generateInitialUrl`. -/
structure AuthUrlParams where
  scopes : String
  state : String
  code_challenge : String
  code_challenge_method : String
deriving DecidableEq, Repr

/-- `_generateInitialUrl` (proxy.js 227-242), with the two random draws
(`generators.codeVerifier()`, `generators.state()`) and the external
`generators.codeChallenge` transform (SHA-256 then base64url) as parameters:
stores `{state → code_verifier}` in `openIdStore`, then builds the
authorization URL parameters. -/
def generateInitialUrl (codeVerifier st : String) (s256 : String → String)
    (s : SessionState) : SessionState × AuthUrlParams :=
  ({ s with openIdStore := (st, codeVerifier) :: s.openIdStore },
   { scopes := "email,openid,profile"
     state := st
     code_challenge := s256 codeVerifier
     code_challenge_method := "S256" })

/-- The two error codes the proxy `onError` handler ignores
(proxy.js 107). -/
def suppressedCode (c : String) : Bool :=
  c == "ECONNRESET" || c == "ERR_SSL_UNSUPPORTED_PROTOCOL"

/-- The proxy `onError` handler (proxy.js 106-113): returns the list of lines
given to the logger.  `requestUrl` is `ctx.clientToProxyRequest.url` when both
`ctx` and the request exist, else the URL falls back to `''`; nothing is logged
when no logger is configured or the error code is suppressed.  The stringified
error in the first line is `'Error: ' + message`. -/
def onErrorHandler (hasLogger : Bool) (requestUrl : Option String)
    (err : NodeError) : List String :=
  if suppressedCode err.code then []
  else if hasLogger then
    ["Daikin-Cloud: SSL-Proxy ERROR for " ++ requestUrl.getD "" ++ " : Error: " ++ err.message,
     err.code ++ ": " ++ err.stack]
  else []

/-- The environment of one `startServer` invocation: the bind outcome of the
MITM proxy listener and of the static web server (`none` = bound successfully,
`some e` = listen failed with `e`), and the two random draws made by
`_generateInitialUrl` on the success path. -/
structure StartEnv where
  proxyBind : Option NodeError
  staticBind : Option NodeError
  codeVerifier : String
  state : String
deriving DecidableEq, Repr

/-- How the promise returned by `startServer` ends up, including the
synchronous `throw` of line 53 and the possibility that it never settles. -/
inductive StartResult where
  | threwAlreadyStarted
  | resolvedTrue
  | rejected (e : NodeError)
  | pending
deriving DecidableEq, Repr

/-- `startServer` (proxy.js 51-175).  Throws if `this.proxyServer` is set.
Otherwise rejects and clears a stale `this.resultPromise`, creates the proxy
(`this.proxyServer = Mitm()`), and listens: a proxy bind failure only reaches
the logging `onError` handler, so the returned promise never settles and the
proxy handle stays set; on proxy bind success the static server is created and
listened, a bind failure there closes both servers, nulls both handles and
rejects with the error; on full success `_generateInitialUrl` runs (via the
index page) and the promise resolves with `true`. -/
def startServer (s256 : String → String) (env : StartEnv) (s : SessionState) :
    SessionState × StartResult :=
  if s.proxyServer then (s, StartResult.threwAlreadyStarted)
  else
    let s0 :=
      match s.resultPromise with
      | some id =>
          { s with
              promises := settlePromise s.promises id (PromiseState.rejected JsError.discardedOnStart)
              resultPromise := none }
      | none => s
    let s1 := { s0 with proxyServer := true }
    match env.proxyBind with
    | some _ => (s1, StartResult.pending)
    | none =>
        let s2 := { s1 with staticServer := true }
        match env.staticBind with
        | some e =>
            ({ s2 with proxyServer := false, staticServer := false },
             StartResult.rejected e)
        | none =>
            ((generateInitialUrl env.codeVerifier env.state s256 s2).1,
             StartResult.resolvedTrue)

/-- How the promise returned by `stopServer` resolves: `resolve(true)` on the
server-closing path, bare `resolve()` when no proxy server exists. -/
inductive StopResult where
  | resolvedTrue
  | resolvedUndefined
deriving DecidableEq, Repr

/-- `stopServer` (proxy.js 182-200): first rejects and clears an outstanding
`this.resultPromise` with the `'Proxy Server stopped.'` error, then closes both
servers (nulling their handles) if the proxy server exists, else resolves
immediately. -/
def stopServer (s : SessionState) : SessionState × StopResult :=
  let s0 :=
    match s.resultPromise with
    | some id =>
        { s with
            promises := settlePromise s.promises id (PromiseState.rejected JsError.stopped)
            resultPromise := none }
    | none => s
  if s0.proxyServer then
    ({ s0 with proxyServer := false, staticServer := false }, StopResult.resolvedTrue)
  else (s0, StopResult.resolvedUndefined)

/-- One externally triggered event of the session: a caller beginning a wait, a
delivery from the interception callback, a captured response, a start, or a
stop. -/
inductive Op where
  | wait
  | deliverOp (d : Delivery)
  | respond (loc : Option String)
  | startOp (env : StartEnv)
  | stopOp
deriving Repr

/-- The state transition of one event. -/
def step (s256 : String → String) (parse : String → CallbackParams)
    (oauth : CallbackParams → Option String → Except JsError TokenSet)
    (op : Op) (s : SessionState) : SessionState :=
  match op with
  | Op.wait => (waitForTokenResponse s).1
  | Op.deliverOp d => deliver d s
  | Op.respond loc => onResponseEnd parse oauth loc s
  | Op.startOp env => (startServer s256 env s).1
  | Op.stopOp => (stopServer s).1

/-- Running a sequence of events. -/
def run (s256 : String → String) (parse : String → CallbackParams)
    (oauth : CallbackParams → Option String → Except JsError TokenSet)
    (ops : List Op) (s : SessionState) : SessionState :=
  ops.foldl (fun s op => step s256 parse oauth op s) s

/-! ## Helper lemmas on the promise heap -/

/-- An index with a value is in bounds. -/
theorem getElem_lt_of_some {α} {l : List α} {i : Nat} {a : α} (h : l[i]? = some a) :
    i < l.length := by
  by_contra hlt
  rw [List.getElem?_eq_none (Nat.le_of_not_lt hlt)] at h
  cases h

/-- An inserted entry is an own property: the JS read yields it without ever
consulting the prototype chain. -/
theorem storeRead_of_lookup {store : List (String × String)} {st : Option String}
    {verifier : String} (h : lookupState store st = some verifier) :
    storeRead store st = StoreValue.entry verifier := by
  unfold lookupState at h
  rcases hf : store.find? (fun p => p.1 == jsPropKey st) with _ | p
  · rw [hf] at h
    cases h
  · rw [hf] at h
    simp only [Option.map_some'] at h
    unfold storeRead
    rw [hf]
    cases h
    rfl

/-- Settling a pending promise writes the new state. -/
theorem settlePromise_of_pending {ps : List PromiseState} {j : Nat}
    (h : ps[j]? = some PromiseState.pending) (st : PromiseState) :
    settlePromise ps j st = ps.set j st := by
  unfold settlePromise
  rw [h]

/-- Settling an already-settled promise is a no-op. -/
theorem settlePromise_of_settled {ps : List PromiseState} {j : Nat} {st' : PromiseState}
    (h : ps[j]? = some st') (hne : st' ≠ PromiseState.pending) (st : PromiseState) :
    settlePromise ps j st = ps := by
  unfold settlePromise
  rw [h]
  cases st' with
  | pending => exact absurd rfl hne
  | resolved v => rfl
  | rejected e => rfl

/-- `settlePromise` either leaves the heap unchanged or writes at its index. -/
theorem settlePromise_eq_or (ps : List PromiseState) (j : Nat) (st : PromiseState) :
    settlePromise ps j st = ps ∨ settlePromise ps j st = ps.set j st := by
  unfold settlePromise
  rcases h : ps[j]? with _ | pst
  · exact Or.inl rfl
  · cases pst
    · exact Or.inr rfl
    · exact Or.inl rfl
    · exact Or.inl rfl

/-- A settled entry of the heap survives any `settlePromise`. -/
theorem settlePromise_preserves {ps : List PromiseState} {i : Nat} {st' : PromiseState}
    (h : ps[i]? = some st') (hne : st' ≠ PromiseState.pending)
    (j : Nat) (st : PromiseState) :
    (settlePromise ps j st)[i]? = some st' := by
  by_cases hji : j = i
  · subst hji
    rw [settlePromise_of_settled h hne st]
    exact h
  · rcases settlePromise_eq_or ps j st with he | he
    · rw [he]; exact h
    · rw [he, List.getElem?_set_ne hji]; exact h

/-- Helper: a settled entry survives a heap that is the original or a
`settlePromise` image of it. -/
theorem settled_of_shape {ps qs : List PromiseState} {i : Nat} {st' : PromiseState}
    (h : ps[i]? = some st') (hne : st' ≠ PromiseState.pending)
    (hshape : qs = ps ∨ ∃ id st, qs = settlePromise ps id st) :
    qs[i]? = some st' := by
  rcases hshape with rfl | ⟨id, st, rfl⟩
  · exact h
  · exact settlePromise_preserves h hne id st

/-- `deliver` on an active rendezvous settles it and clears the reference. -/
theorem deliver_active {s : SessionState} {id : Nat} (d : Delivery)
    (hrp : s.resultPromise = some id)
    (hpend : s.promises[id]? = some PromiseState.pending) :
    (deliver d s).promises[id]? = some (settledOf d) ∧
    (deliver d s).resultPromise = none := by
  have hd : deliver d s =
      { s with promises := settlePromise s.promises id (settledOf d), resultPromise := none } := by
    unfold deliver
    rw [hrp]
  constructor
  · rw [hd]
    show (settlePromise s.promises id (settledOf d))[id]? = some (settledOf d)
    rw [settlePromise_of_pending hpend]
    exact List.getElem?_set_eq_of_lt _ (getElem_lt_of_some hpend)
  · rw [hd]

/-- `deliver` without an active rendezvous does nothing. -/
theorem deliver_inactive {s : SessionState} (d : Delivery)
    (hrp : s.resultPromise = none) : deliver d s = s := by
  unfold deliver
  rw [hrp]

/-- The heap after `deliver` is the original or a `settlePromise` image. -/
theorem deliver_promises_shape (d : Delivery) (s : SessionState) :
    (deliver d s).promises = s.promises ∨
    ∃ id st, (deliver d s).promises = settlePromise s.promises id st := by
  unfold deliver
  rcases hrp : s.resultPromise with _ | id
  · exact Or.inl rfl
  · exact Or.inr ⟨id, settledOf d, rfl⟩

/-- `onResponseEnd` either leaves the session unchanged or performs one
delivery. -/
theorem onResponseEnd_cases (parse : String → CallbackParams)
    (oauth : CallbackParams → Option String → Except JsError TokenSet)
    (loc : Option String) (s : SessionState) :
    onResponseEnd parse oauth loc s = s ∨
    ∃ d, onResponseEnd parse oauth loc s = deliver d s := by
  rcases loc with _ | l
  · exact Or.inl rfl
  · simp only [onResponseEnd]
    by_cases hsw : strStartsWith l "daikinunified://" = true
    · rw [if_pos hsw]
      rcases hr : retrieveTokens oauth (parse l) s.openIdStore with e | v
      · exact Or.inr ⟨Delivery.failure e, rfl⟩
      · exact Or.inr ⟨Delivery.result v, rfl⟩
    · rw [if_neg hsw]
      exact Or.inl rfl

/-- The heap after `startServer` is the original or carries the rejection of
the stale rendezvous that `startServer` discards. -/
theorem startServer_promises_shape (s256 : String → String) (env : StartEnv)
    (s : SessionState) :
    (startServer s256 env s).1.promises = s.promises ∨
    ∃ id st, (startServer s256 env s).1.promises = settlePromise s.promises id st := by
  by_cases hp : s.proxyServer = true
  · left
    simp [startServer, hp]
  · rcases hrp : s.resultPromise with _ | id
    · left
      rcases hpb : env.proxyBind with _ | e
      · rcases hsb : env.staticBind with _ | e'
        · simp [startServer, hp, hrp, hpb, hsb, generateInitialUrl]
        · simp [startServer, hp, hrp, hpb, hsb]
      · simp [startServer, hp, hrp, hpb]
    · right
      refine ⟨id, PromiseState.rejected JsError.discardedOnStart, ?_⟩
      rcases hpb : env.proxyBind with _ | e
      · rcases hsb : env.staticBind with _ | e'
        · simp [startServer, hp, hrp, hpb, hsb, generateInitialUrl]
        · simp [startServer, hp, hrp, hpb, hsb]
      · simp [startServer, hp, hrp, hpb]

/-- The heap after `stopServer` is the original or carries the rejection of the
outstanding rendezvous. -/
theorem stopServer_promises_shape (s : SessionState) :
    (stopServer s).1.promises = s.promises ∨
    ∃ id st, (stopServer s).1.promises = settlePromise s.promises id st := by
  rcases hrp : s.resultPromise with _ | id
  · left
    by_cases hp : s.proxyServer = true <;> simp [stopServer, hrp, hp]
  · right
    refine ⟨id, PromiseState.rejected JsError.stopped, ?_⟩
    by_cases hp : s.proxyServer = true <;> simp [stopServer, hrp, hp]

/-- No session event can unsettle an already-settled promise. -/
theorem step_preserves_settled (s256 : String → String)
    (parse : String → CallbackParams)
    (oauth : CallbackParams → Option String → Except JsError TokenSet)
    (op : Op) {s : SessionState} {i : Nat} {st' : PromiseState}
    (h : s.promises[i]? = some st') (hne : st' ≠ PromiseState.pending) :
    (step s256 parse oauth op s).promises[i]? = some st' := by
  cases op with
  | wait =>
      show (s.promises ++ [PromiseState.pending])[i]? = some st'
      rw [List.getElem?_append_left (getElem_lt_of_some h)]
      exact h
  | deliverOp d =>
      exact settled_of_shape h hne (deliver_promises_shape d s)
  | respond loc =>
      show (onResponseEnd parse oauth loc s).promises[i]? = some st'
      rcases onResponseEnd_cases parse oauth loc s with he | ⟨d, he⟩
      · rw [he]; exact h
      · rw [he]; exact settled_of_shape h hne (deliver_promises_shape d s)
  | startOp env =>
      exact settled_of_shape h hne (startServer_promises_shape s256 env s)
  | stopOp =>
      exact settled_of_shape h hne (stopServer_promises_shape s)

/-- No sequence of session events can unsettle a rejected promise. -/
theorem run_preserves_rejected (s256 : String → String)
    (parse : String → CallbackParams)
    (oauth : CallbackParams → Option String → Except JsError TokenSet)
    (ops : List Op) {s : SessionState} {i : Nat} {e : JsError}
    (h : s.promises[i]? = some (PromiseState.rejected e)) :
    (run s256 parse oauth ops s).promises[i]? = some (PromiseState.rejected e) := by
  induction ops generalizing s with
  | nil => exact h
  | cons op ops ih =>
      exact ih (step_preserves_settled s256 parse oauth op h (by simp))

/-! ## Concrete fixtures -/

/-- A running session with one outstanding rendezvous (promise 0) and one
pending state entry. -/
def sWithWait : SessionState :=
  { proxyServer := true
    staticServer := true
    openIdStore := [("st1", "ver1")]
    resultPromise := some 0
    promises := [PromiseState.pending] }

/-- A freshly constructed, idle session. -/
def idleSession : SessionState :=
  { proxyServer := false
    staticServer := false
    openIdStore := []
    resultPromise := none
    promises := [] }

/-- A stopped session with a stale outstanding rendezvous (promise 0). -/
def sStale : SessionState :=
  { proxyServer := false
    staticServer := false
    openIdStore := []
    resultPromise := some 0
    promises := [PromiseState.pending] }

/-- A concrete `callbackParams` parse: every URL parses to `state=st1` with no
`code`, no `error`. -/
def parse0 : String → CallbackParams := fun _ =>
  { state := some "st1", code := none, error := none, error_description := none }

/-- A concrete always-succeeding `oauthCallback`. -/
def oauth0 : CallbackParams → Option String → Except JsError TokenSet := fun _ _ =>
  Except.ok { payload := "tok" }

/-! ## Claims -/

/-- C1, counterexample: in a session whose rendezvous (promise 0) is still
unsettled, calling `waitForTokenResponse` again leaves promise 0 pending — it
is not rejected with any error, `SupersededError` or otherwise — while the
session's reference moves to the freshly created promise 1. -/
theorem waitFor_prior_stays_pending :
    sWithWait.resultPromise = some 0 ∧
    sWithWait.promises[0]? = some PromiseState.pending ∧
    (waitForTokenResponse sWithWait).1.promises[0]? = some PromiseState.pending ∧
    (waitForTokenResponse sWithWait).1.resultPromise = some 1 :=
  ⟨rfl, rfl, rfl, rfl⟩

/-- C1, amended: calling `waitForTokenResponse` again does not settle the prior
future at all — every previously allocated promise is left exactly as it was
(in particular a still-pending one stays pending forever) — and the session
merely overwrites its reference with the freshly allocated pending promise, so
at most one rendezvous is referenced by the session at a time. -/
theorem waitForTokenResponse_abandons_prior (s : SessionState) :
    (waitForTokenResponse s).1.promises.take s.promises.length = s.promises ∧
    (waitForTokenResponse s).1.promises[s.promises.length]? = some PromiseState.pending ∧
    (waitForTokenResponse s).1.resultPromise = some s.promises.length ∧
    (waitForTokenResponse s).2 = s.promises.length :=
  ⟨List.take_left s.promises _, List.getElem?_concat_length s.promises _, rfl, rfl⟩

/-- C2, counterexample: a captured terminal redirect whose state is known but
which carries neither `code` nor `error` does not leave the waiting rendezvous
unsettled: the handler resolves it with `undefined` and clears it. -/
theorem unrecognized_redirect_settles :
    (onResponseEnd parse0 oauth0 (some "daikinunified://login?state=st1") sWithWait).promises[0]?
      = some (PromiseState.resolved none) ∧
    (onResponseEnd parse0 oauth0 (some "daikinunified://login?state=st1") sWithWait).resultPromise
      = none := by
  constructor <;> rfl

/-- C2, amended: for a captured terminal redirect with a known state and
neither `code` nor `error`, `_retrieveTokens` itself produces no token set and
raises no error (it returns `undefined`), but the interception handler then
treats that `undefined` as a success: the waiting rendezvous is resolved with
`undefined` and cleared, so the caller is unblocked with no token set rather
than staying blocked. -/
theorem unrecognized_redirect_resolves_undefined
    (parse : String → CallbackParams)
    (oauth : CallbackParams → Option String → Except JsError TokenSet)
    (loc : String) (s : SessionState) (id : Nat) (verifier : String)
    (hloc : strStartsWith loc "daikinunified://" = true)
    (hstate : lookupState s.openIdStore (parse loc).state = some verifier)
    (hcode : jsTruthy (parse loc).code = false)
    (herr : jsTruthy (parse loc).error = false)
    (hrp : s.resultPromise = some id)
    (hpend : s.promises[id]? = some PromiseState.pending) :
    retrieveTokens oauth (parse loc) s.openIdStore = Except.ok none ∧
    (onResponseEnd parse oauth (some loc) s).promises[id]? = some (PromiseState.resolved none) ∧
    (onResponseEnd parse oauth (some loc) s).resultPromise = none := by
  have hret : retrieveTokens oauth (parse loc) s.openIdStore = Except.ok none := by
    unfold retrieveTokens
    rw [storeRead_of_lookup hstate]
    simp [hcode, herr]
  have hone : onResponseEnd parse oauth (some loc) s = deliver (Delivery.result none) s := by
    simp only [onResponseEnd]
    rw [if_pos hloc, hret]
  have hdel := deliver_active (Delivery.result none) hrp hpend
  exact ⟨hret, by rw [hone]; exact hdel.1, by rw [hone]; exact hdel.2⟩

/-- C2, witness for the amended theorem at a concrete redirect. -/
theorem unrecognized_redirect_resolves_undefined_witness :
    retrieveTokens oauth0 (parse0 "daikinunified://login?state=st1") sWithWait.openIdStore
      = Except.ok none ∧
    (onResponseEnd parse0 oauth0 (some "daikinunified://login?state=st1") sWithWait).promises[0]?
      = some (PromiseState.resolved none) ∧
    (onResponseEnd parse0 oauth0 (some "daikinunified://login?state=st1") sWithWait).resultPromise
      = none :=
  unrecognized_redirect_resolves_undefined parse0 oauth0
    "daikinunified://login?state=st1" sWithWait 0 "ver1"
    (by decide) rfl rfl rfl rfl rfl

/-- C3: a delivery from the interception callback settles an active rendezvous
accordingly and clears it, after which any further delivery is a no-op (the
first delivery wins and the promise is settled at most once); a delivery with
no active rendezvous leaves the session completely unchanged (it is silently
dropped, and the embedding is a total function, so nothing is thrown). -/
theorem deliver_first_wins (d : Delivery) (s : SessionState) :
    (∀ id, s.resultPromise = some id → s.promises[id]? = some PromiseState.pending →
      ((deliver d s).promises[id]? = some (settledOf d) ∧
       (deliver d s).resultPromise = none ∧
       ∀ d', deliver d' (deliver d s) = deliver d s)) ∧
    (s.resultPromise = none → deliver d s = s) := by
  constructor
  · intro id hrp hpend
    have hd := deliver_active d hrp hpend
    refine ⟨hd.1, hd.2, fun d' => deliver_inactive d' hd.2⟩
  · exact fun hrp => deliver_inactive d hrp

/-- C3, witness: the first delivery of a token set to the active rendezvous of
`sWithWait` resolves promise 0, clears the reference, and a second (error)
delivery changes nothing. -/
theorem deliver_first_wins_witness :
    (deliver (Delivery.result (some { payload := "tok" })) sWithWait).promises[0]?
      = some (PromiseState.resolved (some { payload := "tok" })) ∧
    (deliver (Delivery.result (some { payload := "tok" })) sWithWait).resultPromise = none ∧
    deliver (Delivery.failure JsError.stopped)
        (deliver (Delivery.result (some { payload := "tok" })) sWithWait)
      = deliver (Delivery.result (some { payload := "tok" })) sWithWait := by
  have h := (deliver_first_wins (Delivery.result (some { payload := "tok" })) sWithWait).1 0 rfl rfl
  exact ⟨h.1, h.2.1, h.2.2 (Delivery.failure JsError.stopped)⟩

/-- `stopServer` with an outstanding rendezvous settles the heap through
`settlePromise`, clears the reference, and nulls the proxy handle. -/
theorem stopServer_state {s : SessionState} {id : Nat} (hrp : s.resultPromise = some id) :
    (stopServer s).1.promises
      = settlePromise s.promises id (PromiseState.rejected JsError.stopped) ∧
    (stopServer s).1.resultPromise = none ∧
    (stopServer s).1.proxyServer = false := by
  by_cases hp : s.proxyServer = true <;>
    refine ⟨?_, ?_, ?_⟩ <;> simp [stopServer, hrp, hp]

/-- `startServer` on an idle session with both binds succeeding resolves with
`true`. -/
theorem startServer_success {s : SessionState} (hp : s.proxyServer = false)
    (hrp : s.resultPromise = none) (s256 : String → String) (cv st : String) :
    (startServer s256
        { proxyBind := none, staticBind := none, codeVerifier := cv, state := st } s).2
      = StartResult.resolvedTrue := by
  simp [startServer, hp, hrp, generateInitialUrl]

/-- C4: if a rendezvous is outstanding, `stopServer` rejects it with the
`'Proxy Server stopped.'` error and clears it (the waiting caller is never
left hanging), and a subsequent `startServer` with both binds succeeding
resolves with `true`; `stopServer` on a session with nothing running resolves
without error and changes nothing. -/
theorem stopServer_rejects_outstanding :
    (∀ s id, s.resultPromise = some id → s.promises[id]? = some PromiseState.pending →
      ((stopServer s).1.promises[id]? = some (PromiseState.rejected JsError.stopped) ∧
       (stopServer s).1.resultPromise = none ∧
       ∀ s256 cv st,
         (startServer s256
             { proxyBind := none, staticBind := none, codeVerifier := cv, state := st }
             (stopServer s).1).2 = StartResult.resolvedTrue)) ∧
    (∀ s, s.proxyServer = false → s.resultPromise = none →
      stopServer s = (s, StopResult.resolvedUndefined)) := by
  constructor
  · intro s id hrp hpend
    obtain ⟨hps, hrp', hp'⟩ := stopServer_state hrp
    refine ⟨?_, hrp', ?_⟩
    · rw [hps, settlePromise_of_pending hpend]
      exact List.getElem?_set_eq_of_lt _ (getElem_lt_of_some hpend)
    · intro s256 cv st
      exact startServer_success hp' hrp' s256 cv st
  · intro s hp hrp
    simp [stopServer, hrp, hp]

/-- C4, witness: stopping `sWithWait` rejects its rendezvous with the stop
error and a restart resolves with `true`; stopping the idle session resolves
without error. -/
theorem stopServer_rejects_outstanding_witness :
    ((stopServer sWithWait).1.promises[0]? = some (PromiseState.rejected JsError.stopped) ∧
     (stopServer sWithWait).1.resultPromise = none ∧
     (startServer id { proxyBind := none, staticBind := none, codeVerifier := "v", state := "s" }
        (stopServer sWithWait).1).2 = StartResult.resolvedTrue) ∧
    stopServer idleSession = (idleSession, StopResult.resolvedUndefined) := by
  have h1 := stopServer_rejects_outstanding.1 sWithWait 0 rfl rfl
  exact ⟨⟨h1.1, h1.2.1, h1.2.2 id "v" "s"⟩, stopServer_rejects_outstanding.2 idleSession rfl rfl⟩

/-- A concrete bind failure. -/
def eaddrInUse : NodeError :=
  { code := "EADDRINUSE", message := "listen EADDRINUSE", stack := "Error: listen EADDRINUSE" }

/-- A start environment where the proxy listener fails to bind. -/
def envProxyFail : StartEnv :=
  { proxyBind := some eaddrInUse, staticBind := none, codeVerifier := "v", state := "s" }

/-- A start environment where the static web server fails to bind. -/
def envStaticFail : StartEnv :=
  { proxyBind := none, staticBind := some eaddrInUse, codeVerifier := "v", state := "s" }

/-- C5, counterexample: when the proxy listener fails to bind on a fresh
session, `startServer`'s promise never settles (it is neither resolved nor
rejected, so the failure is not surfaced to the caller) and the proxy handle
remains set (a partial session is left running). -/
theorem proxy_bind_failure_not_surfaced :
    (startServer id envProxyFail idleSession).2 = StartResult.pending ∧
    (startServer id envProxyFail idleSession).1.proxyServer = true := by
  constructor <;> rfl

/-- C5, amended: if the auxiliary static server fails to bind, both listeners
are torn down, the failure surfaces as the rejection of `startServer`'s
promise, and no partial session is left running; but if the proxy listener
fails to bind, the error only reaches the logging `onError` handler, the
returned promise never settles, and the proxy handle stays set. -/
theorem startServer_bind_failure (s256 : String → String) (env : StartEnv)
    (s : SessionState) (hp : s.proxyServer = false) :
    (∀ e, env.proxyBind = none → env.staticBind = some e →
      ((startServer s256 env s).2 = StartResult.rejected e ∧
       (startServer s256 env s).1.proxyServer = false ∧
       (startServer s256 env s).1.staticServer = false)) ∧
    (∀ e, env.proxyBind = some e →
      ((startServer s256 env s).2 = StartResult.pending ∧
       (startServer s256 env s).1.proxyServer = true)) := by
  constructor
  · intro e hpb hsb
    rcases hrp : s.resultPromise with _ | i <;>
      refine ⟨?_, ?_, ?_⟩ <;> simp [startServer, hp, hrp, hpb, hsb]
  · intro e hpb
    rcases hrp : s.resultPromise with _ | i <;>
      refine ⟨?_, ?_⟩ <;> simp [startServer, hp, hrp, hpb]

/-- C5, witness: a static-server bind failure on the idle session rejects with
that error and leaves both handles null. -/
theorem startServer_bind_failure_witness :
    (startServer id envStaticFail idleSession).2 = StartResult.rejected eaddrInUse ∧
    (startServer id envStaticFail idleSession).1.proxyServer = false ∧
    (startServer id envStaticFail idleSession).1.staticServer = false :=
  (startServer_bind_failure id envStaticFail idleSession rfl).1 eaddrInUse rfl rfl

/-- Parameters of a forged redirect whose state names a property inherited
from `Object.prototype` and which carries an authorization code. -/
def forgedParams : CallbackParams :=
  { state := some "constructor", code := some "abc", error := none,
    error_description := none }

/-- C6, counterexample: with an empty pending-state store, a redirect whose
state is `constructor` — a state with no matching entry in the store — does
not fail with the unknown-state error: the guard
`if (!this.openIdStore[params.state])` passes on the truthy inherited
`Object.prototype.constructor`, and because a `code` is present the token
exchange is attempted (here succeeding), contradicting the claim. -/
theorem forged_prototype_state_not_rejected :
    lookupState [] forgedParams.state = none ∧
    retrieveTokens oauth0 forgedParams [] = Except.ok (some { payload := "tok" }) := by
  constructor <;> rfl

/-- C6, amended: a captured redirect whose state reads as `undefined` from the
plain-object pending-state store — it has no inserted entry and is not one of
the property names a plain object inherits from `Object.prototype` — fails
with the unknown-state error for every exchange function (so no token exchange
is ever attempted), whatever `code` or `error` parameters are present; but for
a forged state naming an inherited `Object.prototype` property (such as
`constructor`, `__proto__` or `toString`) the guard passes despite the store
having no matching entry, and with a truthy `code` the exchange is attempted
with an `undefined` code verifier. -/
theorem retrieveTokens_unknown_state
    (oauth : CallbackParams → Option String → Except JsError TokenSet)
    (params : CallbackParams) (store : List (String × String)) :
    (storeRead store params.state = StoreValue.undef →
      retrieveTokens oauth params store
        = Except.error (JsError.unknownState params.state)) ∧
    (lookupState store params.state = none →
      objectPrototypeKeys.contains (jsPropKey params.state) = true →
      jsTruthy params.code = true →
      retrieveTokens oauth params store = (oauth params none).map some) := by
  constructor
  · intro h
    unfold retrieveTokens
    rw [h]
  · intro hl hk hc
    have hread : storeRead store params.state = StoreValue.inherited := by
      rcases hf : store.find? (fun p => p.1 == jsPropKey params.state) with _ | p
      · simp [storeRead, hf]
        simpa using hk
      · exfalso
        unfold lookupState at hl
        rw [hf] at hl
        simp at hl
    unfold retrieveTokens
    rw [hread]
    simp [hc, StoreValue.code_verifier]

/-- C6, witness: a state absent from both the empty store and the prototype
chain fails with the unknown-state error despite `code` and `error` being
present; the forged `constructor` state instead reaches the exchange with an
`undefined` verifier. -/
theorem retrieveTokens_unknown_state_witness :
    retrieveTokens oauth0
      { state := some "forged", code := some "abc", error := some "access_denied",
        error_description := some "x" } []
      = Except.error (JsError.unknownState (some "forged")) ∧
    retrieveTokens oauth0 forgedParams [] = (oauth0 forgedParams none).map some := by
  constructor
  · exact (retrieveTokens_unknown_state oauth0
      { state := some "forged", code := some "abc", error := some "access_denied",
        error_description := some "x" } []).1 rfl
  · exact (retrieveTokens_unknown_state oauth0 forgedParams []).2 rfl rfl rfl

/-- C7: every generated login URL carries `code_challenge_method = "S256"` and
a `code_challenge` equal to the S256 transform of the code verifier that the
call stores in the pending-state store under that URL's `state`. -/
theorem generateInitialUrl_pkce (codeVerifier st : String) (s256 : String → String)
    (s : SessionState) :
    (generateInitialUrl codeVerifier st s256 s).2.code_challenge = s256 codeVerifier ∧
    (generateInitialUrl codeVerifier st s256 s).2.code_challenge_method = "S256" ∧
    (generateInitialUrl codeVerifier st s256 s).2.state = st ∧
    lookupState (generateInitialUrl codeVerifier st s256 s).1.openIdStore
      (some (generateInitialUrl codeVerifier st s256 s).2.state) = some codeVerifier := by
  refine ⟨rfl, rfl, rfl, ?_⟩
  simp [generateInitialUrl, lookupState, jsPropKey]

/-- C8: a redirect with a known state, no (truthy) `code` and a truthy `error`
fails with the authorization error carrying exactly the provider's `error` and
`error_description` values. -/
theorem retrieveTokens_provider_error
    (oauth : CallbackParams → Option String → Except JsError TokenSet)
    (params : CallbackParams) (store : List (String × String)) (verifier : String)
    (hstate : lookupState store params.state = some verifier)
    (hcode : jsTruthy params.code = false)
    (herr : jsTruthy params.error = true) :
    retrieveTokens oauth params store =
      Except.error (JsError.authorization (params.error.getD "") params.error_description) := by
  unfold retrieveTokens
  rw [storeRead_of_lookup hstate]
  simp [hcode, herr]

/-- C8, witness: `error=access_denied&error_description=user cancelled` with a
known state yields a rejection carrying exactly that error/description pair. -/
theorem retrieveTokens_provider_error_witness :
    retrieveTokens oauth0
      { state := some "st1", code := none, error := some "access_denied",
        error_description := some "user cancelled" } [("st1", "ver1")]
      = Except.error (JsError.authorization "access_denied" (some "user cancelled")) :=
  retrieveTokens_provider_error oauth0 _ _ "ver1" rfl rfl rfl

/-- C9: an adapter error whose code is `ECONNRESET` or
`ERR_SSL_UNSUPPORTED_PROTOCOL` is suppressed entirely (nothing reaches the
logger, whether or not one is configured); every other error, with a logger
configured, produces exactly two log lines, the first tagged with the failing
request URL (the empty string when no request is attached).  The handler is a
total function, so it never throws. -/
theorem onError_suppression_and_logging (hasLogger : Bool) (requestUrl : Option String)
    (err : NodeError) :
    ((err.code = "ECONNRESET" ∨ err.code = "ERR_SSL_UNSUPPORTED_PROTOCOL") →
      onErrorHandler hasLogger requestUrl err = []) ∧
    (err.code ≠ "ECONNRESET" → err.code ≠ "ERR_SSL_UNSUPPORTED_PROTOCOL" →
      onErrorHandler true requestUrl err =
        ["Daikin-Cloud: SSL-Proxy ERROR for " ++ requestUrl.getD "" ++ " : Error: " ++ err.message,
         err.code ++ ": " ++ err.stack]) := by
  constructor
  · rintro (h | h) <;> simp [onErrorHandler, suppressedCode, h]
  · intro h1 h2
    have hs : suppressedCode err.code = false := by
      simp [suppressedCode, h1, h2]
    simp [onErrorHandler, hs]

/-- A suppressed connection-reset error. -/
def errReset : NodeError :=
  { code := "ECONNRESET", message := "socket hang up", stack := "Error: socket hang up" }

/-- A non-suppressed connection error. -/
def errRefused : NodeError :=
  { code := "ECONNREFUSED", message := "connect ECONNREFUSED",
    stack := "Error: connect ECONNREFUSED" }

/-- C9, witness: with a logger configured, an `ECONNRESET` error logs nothing
while an `ECONNREFUSED` error logs two lines tagged with the request URL. -/
theorem onError_suppression_and_logging_witness :
    onErrorHandler true (some "https://daikin.example/login") errReset = [] ∧
    onErrorHandler true (some "https://daikin.example/login") errRefused =
      ["Daikin-Cloud: SSL-Proxy ERROR for https://daikin.example/login : Error: connect ECONNREFUSED",
       "ECONNREFUSED: Error: connect ECONNREFUSED"] := by
  constructor
  · exact (onError_suppression_and_logging true (some "https://daikin.example/login") errReset).1
      (Or.inl rfl)
  · exact (onError_suppression_and_logging true (some "https://daikin.example/login") errRefused).2
      (by decide) (by decide)

/-- C10: calling `startServer` on a stopped session that still holds an
outstanding rendezvous from a previous cycle rejects that stale rendezvous with
the `'Proxy Server just started. Discard old process.'` error and clears the
reference, whatever the bind outcomes; and no sequence of later session events
(waits, deliveries, captured responses, starts, stops) can ever settle that
promise differently, so the new session can never resolve it. -/
theorem startServer_discards_stale_rendezvous
    (s256 : String → String) (parse : String → CallbackParams)
    (oauth : CallbackParams → Option String → Except JsError TokenSet)
    (env : StartEnv) (ops : List Op) (s : SessionState) (id : Nat)
    (hp : s.proxyServer = false)
    (hrp : s.resultPromise = some id)
    (hpend : s.promises[id]? = some PromiseState.pending) :
    (startServer s256 env s).1.promises[id]?
      = some (PromiseState.rejected JsError.discardedOnStart) ∧
    (startServer s256 env s).1.resultPromise = none ∧
    (run s256 parse oauth ops (startServer s256 env s).1).promises[id]?
      = some (PromiseState.rejected JsError.discardedOnStart) := by
  have hstate : (startServer s256 env s).1.promises
        = settlePromise s.promises id (PromiseState.rejected JsError.discardedOnStart) ∧
      (startServer s256 env s).1.resultPromise = none := by
    rcases hpb : env.proxyBind with _ | e
    · rcases hsb : env.staticBind with _ | e'
      · constructor <;> simp [startServer, hp, hrp, hpb, hsb, generateInitialUrl]
      · constructor <;> simp [startServer, hp, hrp, hpb, hsb]
    · constructor <;> simp [startServer, hp, hrp, hpb]
  have hrej : (startServer s256 env s).1.promises[id]?
      = some (PromiseState.rejected JsError.discardedOnStart) := by
    rw [hstate.1, settlePromise_of_pending hpend]
    exact List.getElem?_set_eq_of_lt _ (getElem_lt_of_some hpend)
  exact ⟨hrej, hstate.2, run_preserves_rejected s256 parse oauth ops hrej⟩

/-- An all-successful start environment. -/
def envOk : StartEnv :=
  { proxyBind := none, staticBind := none, codeVerifier := "v", state := "s" }

/-- C10, witness: starting over the stale session `sStale` rejects its promise
0 with the discard error, and promise 0 still holds that rejection after a new
wait and a new delivery. -/
theorem startServer_discards_stale_rendezvous_witness :
    (startServer id envOk sStale).1.promises[0]?
      = some (PromiseState.rejected JsError.discardedOnStart) ∧
    (startServer id envOk sStale).1.resultPromise = none ∧
    (run id parse0 oauth0 [Op.wait, Op.deliverOp (Delivery.result none)]
       (startServer id envOk sStale).1).promises[0]?
      = some (PromiseState.rejected JsError.discardedOnStart) :=
  startServer_discards_stale_rendezvous id parse0 oauth0 envOk
    [Op.wait, Op.deliverOp (Delivery.result none)] sStale 0 rfl rfl rfl
